import Mathlib

set_option maxRecDepth 8192

/-!
Shallow embedding of the SEO meta title/description generator (src/app.py)
and proofs of the specification claims about it.

Modelling conventions:
  * Python strings are Lean `String`s (length counts characters, as `len` does).
  * `random.choice(lst)` is modelled by an oracle `Nat → Nat` giving the index
    drawn at each successive call; the element picked is `lst[oracle k % len lst]`.
    Quantifying over all oracles covers every possible random outcome.
  * `re.search(r"\b(kw1|kw2|...)\b", text)` is modelled positionally: some
    position of the text carries one of the alternatives, flanked on both
    sides by a word-character boundary.  Word characters are modelled as
    ASCII alphanumerics and underscore (the inputs of interest are ASCII).
  * The unbounded deduplication `while` loop of the batch is modelled with
    explicit fuel; `none` stands for non-termination within the fuel.
-/

/-! ## Configuration (src/app.py lines 16-17) -/

def TITLE_MIN : Nat := 50
def TITLE_MAX : Nat := 60
def DESC_MIN : Nat := 150
def DESC_MAX : Nat := 160

/-! ## Basic Python string operations -/

/-- Python `text.lower()` restricted to ASCII case folding. -/
def pyLower (s : String) : String := ⟨s.data.map Char.toLower⟩

/-- Python slicing `s[:n]` on a string. -/
def pySlice (s : String) (n : Nat) : String := ⟨s.data.take n⟩

/-- Python whitespace characters stripped by `str.strip()`. -/
def pyWs (c : Char) : Bool :=
  c == ' ' || c == '\t' || c == '\n' || c == '\r' || c == '\x0b' || c == '\x0c'

/-- Python `s.strip()`: remove leading and trailing whitespace. -/
def pyStrip (s : String) : String :=
  ⟨((s.data.dropWhile pyWs).reverse.dropWhile pyWs).reverse⟩

/-- The pattern `pat` occurs in `text` starting at position `i`. -/
def occursAt (pat text : List Char) (i : Nat) : Bool :=
  (text.drop i).take pat.length == pat

/-- Python substring membership `sub in s`. -/
def pyContains (s sub : String) : Bool :=
  (List.range (s.length + 1)).any (fun i => occursAt sub.data s.data i)

/-! ## Intent detection (src/app.py lines 32-43) -/

/-- A word character in the sense of the regex `\b` boundary (ASCII model of `\w`). -/
def isWordChar (c : Char) : Bool := c.isAlphanum || c == '_'

/-- Model of `re.search(r"\b" + pat + r"\b", text) is not None` for a single
alternative `pat` whose first and last characters are word characters:
`pat` occurs at some position whose left and right neighbours (when they
exist) are not word characters. -/
def hasWordMatch (pat text : List Char) : Bool :=
  (List.range (text.length + 1)).any (fun i =>
    occursAt pat text i
    && (i == 0 || !isWordChar (text.getD (i - 1) ' '))
    && (decide (text.length ≤ i + pat.length) || !isWordChar (text.getD (i + pat.length) ' ')))

/-- Model of a regex alternation `\b(kw1|kw2|...)\b`: some alternative matches. -/
def matchAnyWord (kws : List String) (text : List Char) : Bool :=
  kws.any (fun kw => hasWordMatch kw.data text)

/-- An occurrence of `pat` at position `i` is flanked by a word character:
`pat` is there a proper part of a longer word. -/
def flankedAt (pat text : List Char) (i : Nat) : Bool :=
  (decide (0 < i) && isWordChar (text.getD (i - 1) ' ')) ||
  (decide (i + pat.length < text.length) && isWordChar (text.getD (i + pat.length) ' '))

/-- Every occurrence of `pat` in `text` is a proper part of a longer word
(vacuously true when `pat` does not occur at all). -/
def properSubOnly (pat text : List Char) : Bool :=
  (List.range (text.length + 1)).all (fun i => !occursAt pat text i || flankedAt pat text i)

/-- Alternatives of `\b(buy|shop|price|model|deal|feature|specs?)\b`
(the optional group `specs?` expanded to its two forms). -/
def productKeywords : List String :=
  ["buy", "shop", "price", "model", "deal", "feature", "spec", "specs"]

/-- Alternatives of `\b(service|consult|solution|support|agency|expert)\b`. -/
def serviceKeywords : List String :=
  ["service", "consult", "solution", "support", "agency", "expert"]

/-- Alternatives of `\b(how to|guide|tips|news|insight|learn|blog)\b`. -/
def blogKeywords : List String :=
  ["how to", "guide", "tips", "news", "insight", "learn", "blog"]

/-- Alternatives of `\b(collection|list|types?|best|compare|category)\b`
(the optional group `types?` expanded to its two forms). -/
def categoryKeywords : List String :=
  ["collection", "list", "type", "types", "best", "compare", "category"]

/-- The four keyword groups in the priority order the classifier tests them,
paired with the intent label each one yields. -/
def intentKeywordTable : List (String × List String) :=
  [("product", productKeywords), ("service", serviceKeywords),
   ("blog", blogKeywords), ("category", categoryKeywords)]

/-- src/app.py `detect_intent(title, desc)`: lowercase the concatenation
`f"{title} {desc}"` and test the four keyword groups in order. -/
def detect_intent (title desc : String) : String :=
  let text := (pyLower (title ++ " " ++ desc)).data
  if matchAnyWord productKeywords text then "product"
  else if matchAnyWord serviceKeywords text then "service"
  else if matchAnyWord blogKeywords text then "blog"
  else if matchAnyWord categoryKeywords text then "category"
  else "generic"

/-! ## Template tables and length-fitting generation (src/app.py lines 49-120) -/

/-- src/app.py `within_range(text, min_len, max_len)`. -/
def within_range (text : String) (minLen maxLen : Nat) : Bool :=
  decide (minLen ≤ text.length) && decide (text.length ≤ maxLen)

/-- Model of `random.choice(lst)` given the oracle value `r` for this call. -/
def pyChoice (lst : List String) (r : Nat) : String :=
  lst.getD (r % lst.length) ""

/-- The title template table of `generate_title`, with `templates.get(intent,
templates["generic"])` folded in: an unknown intent falls back to the
`generic` entry. -/
def titleTemplates (intent title1 primary_kw secondary_kw : String) : List String :=
  if intent = "product" then
    ["Buy " ++ title1 ++ " | " ++ primary_kw ++ " Details & Pricing",
     primary_kw ++ " – " ++ title1 ++ " with Latest Features",
     title1 ++ ": Premium " ++ primary_kw ++ " for Every Need",
     title1 ++ " – Explore Top " ++ primary_kw ++ " Options"]
  else if intent = "service" then
    [title1 ++ " | Professional " ++ primary_kw ++ " Services",
     "Trusted " ++ primary_kw ++ " Solutions – " ++ title1,
     title1 ++ " – Expert " ++ primary_kw ++ " Support",
     "Reliable " ++ primary_kw ++ " & " ++ secondary_kw ++ " by " ++ title1]
  else if intent = "blog" then
    [title1 ++ " – " ++ primary_kw ++ " Insights & Expert Tips",
     primary_kw ++ " Guide: " ++ title1,
     "Learn " ++ primary_kw ++ " Strategies with " ++ title1,
     title1 ++ ": Explore " ++ primary_kw ++ " & " ++ secondary_kw]
  else if intent = "category" then
    ["Best " ++ primary_kw ++ " " ++ title1 ++ " – Compare Top Choices",
     title1 ++ ": Explore Leading " ++ primary_kw ++ " Options",
     "Top " ++ primary_kw ++ " " ++ title1 ++ " for Smart Selection",
     primary_kw ++ " " ++ title1 ++ " | Discover What Fits You"]
  else
    [title1 ++ " | " ++ primary_kw ++ " Insights & Information",
     "Discover " ++ primary_kw ++ " at " ++ title1,
     primary_kw ++ " – Learn More with " ++ title1,
     title1 ++ ": Everything About " ++ primary_kw]

/-- The description template table of `generate_description`, with
`templates.get(intent, templates["generic"])` folded in.  The
`existing_desc` parameter is accepted, and unused, exactly as in the source. -/
def descTemplates (intent title1 primary_kw secondary_kw tertiary_kw existing_desc : String) :
    List String :=
  if intent = "product" then
    ["Discover " ++ title1 ++ ", a premium " ++ primary_kw ++
       " offering the best in performance and value. Compare " ++ secondary_kw ++
       " and " ++ tertiary_kw ++ " to find your perfect match today.",
     "Explore " ++ title1 ++ ", designed for those who want the finest " ++ primary_kw ++
       ". Compare " ++ secondary_kw ++ " and " ++ tertiary_kw ++
       " for a smarter buying choice."]
  else if intent = "service" then
    ["At " ++ title1 ++ ", we provide professional " ++ primary_kw ++
       " services that deliver real results. Our experts offer tailored " ++ secondary_kw ++
       " and " ++ tertiary_kw ++ " solutions for every client.",
     "Experience reliable " ++ primary_kw ++ " solutions from " ++ title1 ++
       ". We help you with " ++ secondary_kw ++ " and " ++ tertiary_kw ++
       " support designed for lasting success."]
  else if intent = "blog" then
    ["Read " ++ title1 ++ " to explore expert insights on " ++ primary_kw ++
       ". Learn about " ++ secondary_kw ++ " and " ++ tertiary_kw ++
       " strategies to stay informed and ahead of the competition.",
     title1 ++ " covers essential " ++ primary_kw ++ " knowledge with practical " ++
       secondary_kw ++ " and " ++ tertiary_kw ++ " tips for professionals and learners alike."]
  else if intent = "category" then
    ["Browse the best " ++ primary_kw ++ " in " ++ title1 ++ ". Compare " ++ secondary_kw ++
       " and " ++ tertiary_kw ++
       " options to find products that meet your exact requirements with ease.",
     "Explore " ++ title1 ++ " – a curated range of " ++ primary_kw ++ ". Compare " ++
       secondary_kw ++ " and " ++ tertiary_kw ++ " to discover the right fit for your needs."]
  else
    [title1 ++ " provides detailed information about " ++ primary_kw ++ ". Explore " ++
       secondary_kw ++ " and " ++ tertiary_kw ++
       " insights that help you make smarter decisions.",
     "Learn everything about " ++ primary_kw ++ " with " ++ title1 ++ ". Discover " ++
       secondary_kw ++ " and " ++ tertiary_kw ++ " to expand your knowledge today."]

/-- The retry loop shared by `generate_title` and `generate_description`:
`fuel` remaining draws in the budget, `step` the index of the next oracle
call.  With fuel left, draw once and return the draw if its length is in
range, else retry; with the budget exhausted, make one more draw and
hard-truncate it to `maxLen` (the `return random.choice(...)[:MAX]` line). -/
def sampleLoop (tmpls : List String) (minLen maxLen : Nat) (oracle : Nat → Nat) :
    Nat → Nat → String
  | 0, step => pySlice (pyChoice tmpls (oracle step)) maxLen
  | fuel + 1, step =>
    let t := pyChoice tmpls (oracle step)
    if within_range t minLen maxLen = true then t
    else sampleLoop tmpls minLen maxLen oracle fuel (step + 1)

/-- src/app.py `generate_title(intent, title1, primary_kw, secondary_kw)`. -/
def generate_title (oracle : Nat → Nat) (intent title1 primary_kw secondary_kw : String) :
    String :=
  sampleLoop (titleTemplates intent title1 primary_kw secondary_kw)
    TITLE_MIN TITLE_MAX oracle 10 0

/-- src/app.py `generate_description(intent, title1, primary_kw, secondary_kw,
tertiary_kw, existing_desc)`. -/
def generate_description (oracle : Nat → Nat)
    (intent title1 primary_kw secondary_kw tertiary_kw existing_desc : String) : String :=
  sampleLoop (descTemplates intent title1 primary_kw secondary_kw tertiary_kw existing_desc)
    DESC_MIN DESC_MAX oracle 10 0

/-- The `k`-th random draw `generate_title` would make under `oracle`. -/
def titleDraw (oracle : Nat → Nat) (intent title1 primary_kw secondary_kw : String)
    (k : Nat) : String :=
  pyChoice (titleTemplates intent title1 primary_kw secondary_kw) (oracle k)

/-- Whether the `k`-th title draw lies inside the title length window. -/
def titleFits (oracle : Nat → Nat) (intent title1 primary_kw secondary_kw : String)
    (k : Nat) : Bool :=
  within_range (titleDraw oracle intent title1 primary_kw secondary_kw k) TITLE_MIN TITLE_MAX

/-- The `k`-th random draw `generate_description` would make under `oracle`. -/
def descDraw (oracle : Nat → Nat)
    (intent title1 primary_kw secondary_kw tertiary_kw existing_desc : String)
    (k : Nat) : String :=
  pyChoice (descTemplates intent title1 primary_kw secondary_kw tertiary_kw existing_desc)
    (oracle k)

/-- Whether the `k`-th description draw lies inside the description window. -/
def descFits (oracle : Nat → Nat)
    (intent title1 primary_kw secondary_kw tertiary_kw existing_desc : String)
    (k : Nat) : Bool :=
  within_range (descDraw oracle intent title1 primary_kw secondary_kw tertiary_kw
    existing_desc k) DESC_MIN DESC_MAX

/-! ## Batch deduplication loop (src/app.py lines 144-166)

The generated value of one record is an arbitrary function of the attempt
number (`gen k` is what the `k`-th re-invocation of the assembler returns),
which subsumes the re-sampling of `generate_title` / `generate_description`
with fresh randomness on every retry. -/

/-- The `while meta in generated: meta = generate(...)` loop, with `fuel`
bounding the number of generation attempts; `none` means the loop did not
terminate within the fuel. -/
def dedupLoop (gen : Nat → String) (seen : List String) : Nat → Nat → Option String
  | 0, _ => none
  | fuel + 1, k =>
    let t := gen k
    if t ∈ seen then dedupLoop gen seen fuel (k + 1) else some t

/-- The per-record portion of the batch loop: each row carries its stream of
title attempts and its stream of description attempts; the two seen-sets grow
across rows exactly as `generated_titles` / `generated_descriptions` do. -/
def runBatch : List ((Nat → String) × (Nat → String)) → List String → List String →
    Nat → Option (List (String × String))
  | [], _, _, _ => some []
  | r :: rest, seenT, seenD, fuel =>
    match dedupLoop r.1 seenT fuel 0 with
    | none => none
    | some t =>
      match dedupLoop r.2 seenD fuel 0 with
      | none => none
      | some d =>
        match runBatch rest (t :: seenT) (d :: seenD) fuel with
        | none => none
        | some out => some ((t, d) :: out)

/-! ## Field extraction from a row (src/app.py lines 146-153) -/

/-- A cell of the uploaded table as seen by `row.get(col, "")`: the column can
be absent from the table, present but holding a missing value (pandas `NaN`),
or present with a string. -/
inductive Cell
  | absent
  | null
  | str (s : String)
deriving DecidableEq

/-- Model of `str(row.get(col, ""))` before `.strip()`: an absent column
yields the default `""` (and `str("") = ""`), while a pandas missing value is
the float `nan`, which `str` renders as `"nan"`. -/
def cellToStr : Cell → String
  | .absent => ""
  | .null => "nan"
  | .str s => s

/-- Model of `str(row.get(col, "")).strip()`. -/
def getField (row : String → Cell) (col : String) : String :=
  pyStrip (cellToStr (row col))

/-- One iteration of the batch body without the deduplication re-draws
(src/app.py lines 147-159): extract the five fields, classify, and generate
a title and a description.  Returns `(intent, meta_title, meta_desc)`. -/
def processRecord (oracleT oracleD : Nat → Nat) (row : String → Cell) :
    String × String × String :=
  let title1 := getField row "Title 1"
  let existing_desc := getField row "Existing Description"
  let primary_kw := getField row "Primary KW"
  let secondary_kw := getField row "Secondary KW"
  let tertiary_kw := getField row "Tertiary KW"
  let intent := detect_intent title1 existing_desc
  (intent,
   generate_title oracleT intent title1 primary_kw secondary_kw,
   generate_description oracleD intent title1 primary_kw secondary_kw tertiary_kw existing_desc)

/-! ## Output column assembly (src/app.py lines 168-172) -/

/-- A value held by a dataframe column: a string cell or an integer cell. -/
inductive PVal
  | vs (s : String)
  | vn (n : Nat)
deriving DecidableEq

/-- A dataframe, column-wise: column names in order, each with its values. -/
def dfHasCol (df : List (String × List PVal)) (name : String) : Bool :=
  df.any (fun p => p.1 == name)

/-- Pandas column assignment `df[name] = vals`: overwrite in place when the
column already exists, otherwise append the new column at the end. -/
def setCol (df : List (String × List PVal)) (name : String) (vals : List PVal) :
    List (String × List PVal) :=
  if dfHasCol df name then df.map (fun p => if p.1 == name then (name, vals) else p)
  else df ++ [(name, vals)]

/-- Pandas column read `df[name]` (empty when the column does not exist; the
source only reads columns it just assigned). -/
def getCol (df : List (String × List PVal)) (name : String) : List PVal :=
  match df.find? (fun p => p.1 == name) with
  | some p => p.2
  | none => []

/-- Pandas `column.apply(len)` on a column of strings. -/
def applyLen (col : List PVal) : List PVal :=
  col.map (fun v => match v with | .vs s => PVal.vn s.length | x => x)

/-- src/app.py lines 168-172: append the five result columns to the
dataframe, the two char-count columns being read back from the two
just-assigned generated columns. -/
def appendResults (df : List (String × List PVal)) (intents titles descs : List String) :
    List (String × List PVal) :=
  let d1 := setCol df "Detected Intent" (intents.map PVal.vs)
  let d2 := setCol d1 "Generated Meta Title" (titles.map PVal.vs)
  let d3 := setCol d2 "Generated Meta Description" (descs.map PVal.vs)
  let d4 := setCol d3 "Title Char Count" (applyLen (getCol d3 "Generated Meta Title"))
  let d5 := setCol d4 "Description Char Count" (applyLen (getCol d4 "Generated Meta Description"))
  d5

/-- The five appended output column names, in order. -/
def outputColumns : List String :=
  ["Detected Intent", "Generated Meta Title", "Generated Meta Description",
   "Title Char Count", "Description Char Count"]

/-! ## Concrete inputs used by witnesses and counterexamples -/

/-- Oracle that always draws index 0. -/
def zeroOracle : Nat → Nat := fun _ => 0

/-- Oracle that always draws index 1. -/
def oneOracle : Nat → Nat := fun _ => 1

/-- Oracle whose first ten draws are index 0 and whose eleventh draw is
index 1: it separates a fallback on the last in-budget draw from a fallback
on a fresh extra draw. -/
def mixedOracle : Nat → Nat := fun k => if k < 10 then 0 else 1

/-- A 70-character title fragment, longer than the whole title window. -/
def longA : String := ⟨List.replicate 70 'a'⟩

/-- The input row of the end-to-end scenario of spec section 8. -/
def row7 : String → Cell := fun c =>
  if c = "Title 1" then .str "Acme Laptops"
  else if c = "Existing Description" then .str "Buy the best gaming laptop"
  else if c = "Primary KW" then .str "gaming laptop"
  else if c = "Secondary KW" then .str "RTX graphics"
  else if c = "Tertiary KW" then .str "fast SSD"
  else .absent

/-- A one-column input table whose only column clashes with an appended name. -/
def clashDf : List (String × List PVal) := [("Detected Intent", [PVal.vs "x"])]

/-- A small ordinary input table. -/
def plainDf : List (String × List PVal) := [("Title 1", [PVal.vs "Acme"])]

/-- Two records for the deduplication batch: the second record's first title
attempt collides with the first record's title and its retry resolves it. -/
def rowsC5 : List ((Nat → String) × (Nat → String)) :=
  [(fun _ => "A", fun _ => "B"),
   (fun k => if k = 0 then "A" else "C", fun _ => "D")]

/-! # Theorems -/

/-! ## Helper lemmas about the string primitives -/

theorem within_range_iff (t : String) (mn mx : Nat) :
    within_range t mn mx = true ↔ mn ≤ t.length ∧ t.length ≤ mx := by
  rw [within_range, Bool.and_eq_true, decide_eq_true_iff, decide_eq_true_iff]

theorem pySlice_length (s : String) (n : Nat) : (pySlice s n).length = min n s.length := by
  rw [pySlice, String.length_mk, List.length_take]
  rfl

theorem pyChoice_mem (l : List String) (r : Nat) (h : l ≠ []) : pyChoice l r ∈ l := by
  have hlen : 0 < l.length := List.length_pos.mpr h
  have hlt : r % l.length < l.length := Nat.mod_lt _ hlen
  rw [pyChoice, List.getD_eq_getElem?_getD, List.getElem?_eq_getElem hlt]
  simpa using List.getElem_mem hlt

theorem pyContains_iff (s sub : String) :
    pyContains s sub = true ↔ ∃ x y, s.data = x ++ (sub.data ++ y) := by
  constructor
  · intro h
    rw [pyContains, List.any_eq_true] at h
    obtain ⟨i, _, hocc⟩ := h
    rw [occursAt, beq_iff_eq] at hocc
    refine ⟨s.data.take i, (s.data.drop i).drop sub.data.length, ?_⟩
    conv_lhs => rw [← List.take_append_drop i s.data,
      ← List.take_append_drop sub.data.length (s.data.drop i)]
    rw [hocc]
  · rintro ⟨x, y, h⟩
    rw [pyContains, List.any_eq_true]
    refine ⟨x.length, ?_, ?_⟩
    · rw [List.mem_range]
      have hs : s.length = s.data.length := rfl
      rw [hs, h]
      simp [List.length_append]
      omega
    · rw [occursAt, h, List.drop_left, List.take_left]
      exact beq_self_eq_true _

theorem pyContains_refl (s : String) : pyContains s s = true :=
  (pyContains_iff s s).mpr ⟨[], [], by simp⟩

theorem pyContains_app_right (a b sub : String) (h : pyContains b sub = true) :
    pyContains (a ++ b) sub = true := by
  obtain ⟨x, y, hx⟩ := (pyContains_iff b sub).mp h
  exact (pyContains_iff _ _).mpr
    ⟨a.data ++ x, y, by rw [String.data_append, hx, List.append_assoc]⟩

theorem pyContains_app_left (a b sub : String) (h : pyContains a sub = true) :
    pyContains (a ++ b) sub = true := by
  obtain ⟨x, y, hx⟩ := (pyContains_iff a sub).mp h
  refine (pyContains_iff _ _).mpr ⟨x, y ++ b.data, ?_⟩
  rw [String.data_append, hx]
  simp [List.append_assoc]

theorem pyContains_app_left2 (a b c sub : String) (h : pyContains a sub = true) :
    pyContains (a ++ b ++ c) sub = true :=
  pyContains_app_left _ _ _ (pyContains_app_left _ _ _ h)

theorem pyContains_app_left4 (a b c d e : String) (sub : String)
    (h : pyContains a sub = true) : pyContains (a ++ b ++ c ++ d ++ e) sub = true :=
  pyContains_app_left2 _ _ _ _ (pyContains_app_left2 _ _ _ _ h)

/-! ## Helper lemmas about the retry loop -/

theorem sampleLoop_length_le (tmpls : List String) (mn mx : Nat) (oracle : Nat → Nat) :
    ∀ fuel step, (sampleLoop tmpls mn mx oracle fuel step).length ≤ mx := by
  intro fuel
  induction fuel with
  | zero =>
    intro step
    rw [sampleLoop, pySlice_length]
    exact min_le_left _ _
  | succ fuel ih =>
    intro step
    rw [sampleLoop]
    by_cases hc : within_range (pyChoice tmpls (oracle step)) mn mx = true
    · simp only [hc, if_true]
      exact ((within_range_iff _ _ _).mp hc).2
    · simp only [hc, if_false]
      exact ih (step + 1)

theorem sampleLoop_mem (tmpls : List String) (mn mx : Nat) (oracle : Nat → Nat)
    (hne : tmpls ≠ []) :
    ∀ fuel step,
      sampleLoop tmpls mn mx oracle fuel step ∈ tmpls ++ tmpls.map (fun t => pySlice t mx) := by
  intro fuel
  induction fuel with
  | zero =>
    intro step
    rw [sampleLoop]
    exact List.mem_append_right _ (List.mem_map_of_mem _ (pyChoice_mem _ _ hne))
  | succ fuel ih =>
    intro step
    rw [sampleLoop]
    by_cases hc : within_range (pyChoice tmpls (oracle step)) mn mx = true
    · simp only [hc, if_true]
      exact List.mem_append_left _ (pyChoice_mem _ _ hne)
    · simp only [hc, if_false]
      exact ih (step + 1)

theorem sampleLoop_eq_fallback (tmpls : List String) (mn mx : Nat) (oracle : Nat → Nat) :
    ∀ fuel step,
      (∀ j, j < fuel → within_range (pyChoice tmpls (oracle (step + j))) mn mx = false) →
      sampleLoop tmpls mn mx oracle fuel step =
        pySlice (pyChoice tmpls (oracle (step + fuel))) mx := by
  intro fuel
  induction fuel with
  | zero =>
    intro step _
    rw [sampleLoop, Nat.add_zero]
  | succ fuel ih =>
    intro step h
    have h0 : within_range (pyChoice tmpls (oracle step)) mn mx = false := by
      have := h 0 (Nat.succ_pos _)
      rwa [Nat.add_zero] at this
    rw [sampleLoop]
    simp only [h0, Bool.false_eq_true, if_false]
    have hrec := ih (step + 1) (fun j hj => by
      have := h (j + 1) (Nat.succ_lt_succ hj)
      have e : step + (j + 1) = step + 1 + j := by omega
      rwa [e] at this)
    rw [hrec]
    have e : step + 1 + fuel = step + (fuel + 1) := by omega
    rw [e]

theorem sampleLoop_eq_of_fit (tmpls : List String) (mn mx : Nat) (oracle : Nat → Nat) :
    ∀ fuel step k, k < fuel →
      (∀ j, j < k → within_range (pyChoice tmpls (oracle (step + j))) mn mx = false) →
      within_range (pyChoice tmpls (oracle (step + k))) mn mx = true →
      sampleLoop tmpls mn mx oracle fuel step = pyChoice tmpls (oracle (step + k)) := by
  intro fuel
  induction fuel with
  | zero =>
    intro step k hk
    exact absurd hk (Nat.not_lt_zero k)
  | succ fuel ih =>
    intro step k hk hbef hfit
    cases k with
    | zero =>
      rw [Nat.add_zero] at hfit
      rw [sampleLoop]
      simp only [hfit, if_true, Nat.add_zero]
    | succ k =>
      have h0 : within_range (pyChoice tmpls (oracle step)) mn mx = false := by
        have := hbef 0 (Nat.succ_pos _)
        rwa [Nat.add_zero] at this
      rw [sampleLoop]
      simp only [h0, Bool.false_eq_true, if_false]
      have hbef' : ∀ j, j < k →
          within_range (pyChoice tmpls (oracle (step + 1 + j))) mn mx = false := by
        intro j hj
        have := hbef (j + 1) (Nat.succ_lt_succ hj)
        have e : step + (j + 1) = step + 1 + j := by omega
        rwa [e] at this
      have hfit' : within_range (pyChoice tmpls (oracle (step + 1 + k))) mn mx = true := by
        have e : step + (k + 1) = step + 1 + k := by omega
        rwa [e] at hfit
      have hrec := ih (step + 1) k (Nat.lt_of_succ_lt_succ hk) hbef' hfit'
      rw [hrec]
      have e : step + 1 + k = step + (k + 1) := by omega
      rw [e]

theorem sampleLoop_fit_mem (tmpls : List String) (mn mx : Nat) (oracle : Nat → Nat)
    (hmn : 0 < mn) :
    ∀ fuel step,
      (∃ k, k < fuel ∧ within_range (pyChoice tmpls (oracle (step + k))) mn mx = true) →
      sampleLoop tmpls mn mx oracle fuel step ∈ tmpls := by
  intro fuel
  induction fuel with
  | zero =>
    rintro step ⟨k, hk, _⟩
    exact absurd hk (Nat.not_lt_zero k)
  | succ fuel ih =>
    rintro step ⟨k, hk, hfit⟩
    rw [sampleLoop]
    by_cases hc : within_range (pyChoice tmpls (oracle step)) mn mx = true
    · simp only [hc, if_true]
      have hne : tmpls ≠ [] := by
        intro he
        subst he
        have hlen := ((within_range_iff _ _ _).mp hc).1
        simp [pyChoice] at hlen
        omega
      exact pyChoice_mem _ _ hne
    · simp only [hc, if_false]
      apply ih (step + 1)
      cases k with
      | zero =>
        rw [Nat.add_zero] at hfit
        exact absurd hfit hc
      | succ k =>
        refine ⟨k, Nat.lt_of_succ_lt_succ hk, ?_⟩
        have e : step + (k + 1) = step + 1 + k := by omega
        rwa [e] at hfit

/-! ## Helper lemmas about keyword matching -/

theorem hasWordMatch_eq_false_of_properSubOnly (pat text : List Char)
    (h : properSubOnly pat text = true) : hasWordMatch pat text = false := by
  rw [properSubOnly, List.all_eq_true] at h
  cases hm : hasWordMatch pat text with
  | false => rfl
  | true =>
    exfalso
    rw [hasWordMatch, List.any_eq_true] at hm
    obtain ⟨i, hi, hcond⟩ := hm
    simp only [Bool.and_eq_true] at hcond
    obtain ⟨⟨hocc, hleft⟩, hright⟩ := hcond
    have h2 := h i hi
    simp only [hocc, Bool.not_true, Bool.false_or] at h2
    rw [flankedAt, Bool.or_eq_true, Bool.and_eq_true, Bool.and_eq_true] at h2
    rcases h2 with ⟨hpos, hword⟩ | ⟨hlt, hword⟩
    · rw [decide_eq_true_iff] at hpos
      have hne : (i == 0) = false := by
        simp only [beq_eq_false_iff_ne, ne_eq]
        omega
      rw [hne, Bool.false_or, hword] at hleft
      simp at hleft
    · rw [decide_eq_true_iff] at hlt
      have hne : decide (text.length ≤ i + pat.length) = false := by
        simp only [decide_eq_false_iff_not]
        omega
      rw [hne, Bool.false_or, hword] at hright
      simp at hright

/-! ## Claim C2: classification priority order -/

/-- C2: the classifier tests the keyword groups in the fixed order product,
service, blog, category and returns the first group that matches; in
particular any text matching both a product keyword and a service keyword
(each as a whole word) classifies as product. -/
theorem claim_C2 (title desc : String)
    (hp : matchAnyWord productKeywords (pyLower (title ++ " " ++ desc)).data = true)
    (hs : matchAnyWord serviceKeywords (pyLower (title ++ " " ++ desc)).data = true) :
    detect_intent title desc = "product" := by
  rw [detect_intent]
  simp only [hp, if_true]

/-- C2 witness: the spec example "buy expert support" matches both a product
keyword and two service keywords and classifies as product. -/
theorem claim_C2_witness :
    matchAnyWord productKeywords (pyLower ("buy expert support" ++ " " ++ "")).data = true ∧
    matchAnyWord serviceKeywords (pyLower ("buy expert support" ++ " " ++ "")).data = true ∧
    detect_intent "buy expert support" "" = "product" :=
  ⟨by decide, by decide, claim_C2 "buy expert support" "" (by decide) (by decide)⟩

/-! ## Claim C3: word boundaries are respected -/

/-- C3: keyword matching respects word boundaries: if every occurrence of
every keyword of one of the four groups in the case-folded text is a proper
part of a longer word (for instance "buy" occurring only inside "buying" or
"rebuy"), the classifier does not return that group's label. -/
theorem claim_C3 (title desc : String) (label : String) (kws : List String)
    (hmem : (label, kws) ∈ intentKeywordTable)
    (hocc : ∀ kw ∈ kws, properSubOnly kw.data (pyLower (title ++ " " ++ desc)).data = true) :
    detect_intent title desc ≠ label := by
  have hfalse : matchAnyWord kws (pyLower (title ++ " " ++ desc)).data = false := by
    rw [matchAnyWord, List.any_eq_false]
    intro kw hkw
    simp only [Bool.not_eq_true]
    exact hasWordMatch_eq_false_of_properSubOnly _ _ (hocc kw hkw)
  fin_cases hmem <;>
    · intro heq
      rw [detect_intent] at heq
      split_ifs at heq with h1 h2 h3 h4 <;> simp_all

/-- C3 witness: in "buying rebuy" the product keyword "buy" occurs only
inside longer words, and the classifier does not return product. -/
theorem claim_C3_witness :
    ("product", productKeywords) ∈ intentKeywordTable ∧
    (∀ kw ∈ productKeywords,
      properSubOnly kw.data (pyLower ("buying rebuy" ++ " " ++ "")).data = true) ∧
    detect_intent "buying rebuy" "" ≠ "product" :=
  ⟨by decide, by decide,
   claim_C3 "buying rebuy" "" "product" productKeywords (by decide) (by decide)⟩

/-! ## Claim C1: retry budget and fallback -/

/-- C1 (amended): the assemblers make up to 10 random template draws and
return the first draw whose length lies inside the window; if no draw within
the budget fits, they return a fresh, eleventh random draw hard-truncated to
the maximum (not the last draw of the budget), and they never pad a short
result. -/
theorem claim_C1 (oracle : Nat → Nat) (intent t1 pk sk tk ed : String) :
    (∀ k, k < 10 →
      (∀ j, j < k → titleFits oracle intent t1 pk sk j = false) →
      titleFits oracle intent t1 pk sk k = true →
      generate_title oracle intent t1 pk sk = titleDraw oracle intent t1 pk sk k) ∧
    ((∀ k, k < 10 → titleFits oracle intent t1 pk sk k = false) →
      generate_title oracle intent t1 pk sk =
        pySlice (titleDraw oracle intent t1 pk sk 10) TITLE_MAX) ∧
    (∀ k, k < 10 →
      (∀ j, j < k → descFits oracle intent t1 pk sk tk ed j = false) →
      descFits oracle intent t1 pk sk tk ed k = true →
      generate_description oracle intent t1 pk sk tk ed =
        descDraw oracle intent t1 pk sk tk ed k) ∧
    ((∀ k, k < 10 → descFits oracle intent t1 pk sk tk ed k = false) →
      generate_description oracle intent t1 pk sk tk ed =
        pySlice (descDraw oracle intent t1 pk sk tk ed 10) DESC_MAX) := by
  refine ⟨?_, ?_, ?_, ?_⟩
  · intro k hk hbef hfit
    rw [generate_title, titleDraw]
    have := sampleLoop_eq_of_fit (titleTemplates intent t1 pk sk) TITLE_MIN TITLE_MAX
      oracle 10 0 k hk
      (fun j hj => by simpa [titleFits, titleDraw] using hbef j hj)
      (by simpa [titleFits, titleDraw] using hfit)
    simpa using this
  · intro hall
    rw [generate_title, titleDraw]
    have := sampleLoop_eq_fallback (titleTemplates intent t1 pk sk) TITLE_MIN TITLE_MAX
      oracle 10 0
      (fun j hj => by simpa [titleFits, titleDraw] using hall j hj)
    simpa using this
  · intro k hk hbef hfit
    rw [generate_description, descDraw]
    have := sampleLoop_eq_of_fit
      (descTemplates intent t1 pk sk tk ed) DESC_MIN DESC_MAX oracle 10 0 k hk
      (fun j hj => by simpa [descFits, descDraw] using hbef j hj)
      (by simpa [descFits, descDraw] using hfit)
    simpa using this
  · intro hall
    rw [generate_description, descDraw]
    have := sampleLoop_eq_fallback
      (descTemplates intent t1 pk sk tk ed) DESC_MIN DESC_MAX oracle 10 0
      (fun j hj => by simpa [descFits, descDraw] using hall j hj)
    simpa using this

/-- C1 counterexample: under an oracle whose first ten draws pick template 0
and whose eleventh draw picks template 1, no in-budget draw fits, and the
returned string differs from the last in-budget draw truncated to the
maximum — the fallback is a fresh draw, not the last one. -/
theorem claim_C1_counterexample :
    (∀ k, k < 10 → titleFits mixedOracle "generic" "" "" "" k = false) ∧
    generate_title mixedOracle "generic" "" "" "" ≠
      pySlice (titleDraw mixedOracle "generic" "" "" "" 9) TITLE_MAX := by
  exact ⟨by decide, by decide⟩

/-- C1 witness: a concrete first-fit return and a concrete fallback return
for both assemblers. -/
theorem claim_C1_witness :
    generate_title zeroOracle "product" "Acme Laptops" "gaming laptop" "" =
      titleDraw zeroOracle "product" "Acme Laptops" "gaming laptop" "" 0 ∧
    generate_title mixedOracle "generic" "" "" "" =
      pySlice (titleDraw mixedOracle "generic" "" "" "" 10) TITLE_MAX ∧
    generate_description zeroOracle "product" "Acme Laptops" "gaming laptop"
        "RTX graphics" "fast SSD" "" =
      descDraw zeroOracle "product" "Acme Laptops" "gaming laptop"
        "RTX graphics" "fast SSD" "" 0 ∧
    generate_description mixedOracle "generic" "" "" "" "" "" =
      pySlice (descDraw mixedOracle "generic" "" "" "" "" "" 10) DESC_MAX :=
  ⟨(claim_C1 zeroOracle "product" "Acme Laptops" "gaming laptop" "" "" "").1
      0 (by decide) (by decide) (by decide),
   (claim_C1 mixedOracle "generic" "" "" "" "" "").2.1 (by decide),
   (claim_C1 zeroOracle "product" "Acme Laptops" "gaming laptop" "RTX graphics"
      "fast SSD" "").2.2.1 0 (by decide) (by decide) (by decide),
   (claim_C1 mixedOracle "generic" "" "" "" "" "").2.2.2 (by decide)⟩

/-! ## Claim C4: required fragments in the output -/

theorem titleTemplates_contain (intent t1 pk sk : String) :
    ∀ s ∈ titleTemplates intent t1 pk sk,
      pyContains s t1 = true ∧ pyContains s pk = true := by
  have L := pyContains_app_left
  have R := pyContains_app_right
  have S := pyContains_refl
  intro s hs
  rw [titleTemplates] at hs
  split_ifs at hs <;>
    simp only [List.mem_cons, List.not_mem_nil, or_false] at hs
  · rcases hs with h | h | h | h <;> subst h
    · exact ⟨L _ _ _ (L _ _ _ (L _ _ _ (R _ _ _ (S _)))), L _ _ _ (R _ _ _ (S _))⟩
    · exact ⟨L _ _ _ (R _ _ _ (S _)), L _ _ _ (L _ _ _ (L _ _ _ (S _)))⟩
    · exact ⟨L _ _ _ (L _ _ _ (L _ _ _ (S _))), L _ _ _ (R _ _ _ (S _))⟩
    · exact ⟨L _ _ _ (L _ _ _ (L _ _ _ (S _))), L _ _ _ (R _ _ _ (S _))⟩
  · rcases hs with h | h | h | h <;> subst h
    · exact ⟨L _ _ _ (L _ _ _ (L _ _ _ (S _))), L _ _ _ (R _ _ _ (S _))⟩
    · exact ⟨R _ _ _ (S _), L _ _ _ (L _ _ _ (R _ _ _ (S _)))⟩
    · exact ⟨L _ _ _ (L _ _ _ (L _ _ _ (S _))), L _ _ _ (R _ _ _ (S _))⟩
    · exact ⟨R _ _ _ (S _), L _ _ _ (L _ _ _ (L _ _ _ (L _ _ _ (R _ _ _ (S _)))))⟩
  · rcases hs with h | h | h | h <;> subst h
    · exact ⟨L _ _ _ (L _ _ _ (L _ _ _ (S _))), L _ _ _ (R _ _ _ (S _))⟩
    · exact ⟨R _ _ _ (S _), L _ _ _ (L _ _ _ (S _))⟩
    · exact ⟨R _ _ _ (S _), L _ _ _ (L _ _ _ (R _ _ _ (S _)))⟩
    · exact ⟨L _ _ _ (L _ _ _ (L _ _ _ (L _ _ _ (S _)))), L _ _ _ (L _ _ _ (R _ _ _ (S _)))⟩
  · rcases hs with h | h | h | h <;> subst h
    · exact ⟨L _ _ _ (R _ _ _ (S _)), L _ _ _ (L _ _ _ (L _ _ _ (R _ _ _ (S _))))⟩
    · exact ⟨L _ _ _ (L _ _ _ (L _ _ _ (S _))), L _ _ _ (R _ _ _ (S _))⟩
    · exact ⟨L _ _ _ (R _ _ _ (S _)), L _ _ _ (L _ _ _ (L _ _ _ (R _ _ _ (S _))))⟩
    · exact ⟨L _ _ _ (R _ _ _ (S _)), L _ _ _ (L _ _ _ (L _ _ _ (S _)))⟩
  · rcases hs with h | h | h | h <;> subst h
    · exact ⟨L _ _ _ (L _ _ _ (L _ _ _ (S _))), L _ _ _ (R _ _ _ (S _))⟩
    · exact ⟨R _ _ _ (S _), L _ _ _ (L _ _ _ (R _ _ _ (S _)))⟩
    · exact ⟨R _ _ _ (S _), L _ _ _ (L _ _ _ (S _))⟩
    · exact ⟨L _ _ _ (L _ _ _ (S _)), R _ _ _ (S _)⟩

theorem descTemplates_contain (intent t1 pk sk tk ed : String) :
    ∀ s ∈ descTemplates intent t1 pk sk tk ed,
      pyContains s t1 = true ∧ pyContains s pk = true := by
  have L := pyContains_app_left
  have R := pyContains_app_right
  have S := pyContains_refl
  intro s hs
  rw [descTemplates] at hs
  split_ifs at hs <;>
    simp only [List.mem_cons, List.not_mem_nil, or_false] at hs
  · rcases hs with h | h <;> subst h
    · exact ⟨L _ _ _ (L _ _ _ (L _ _ _ (L _ _ _ (L _ _ _ (L _ _ _ (L _ _ _ (R _ _ _ (S _)))))))),
             L _ _ _ (L _ _ _ (L _ _ _ (L _ _ _ (L _ _ _ (R _ _ _ (S _))))))⟩
    · exact ⟨L _ _ _ (L _ _ _ (L _ _ _ (L _ _ _ (L _ _ _ (L _ _ _ (L _ _ _ (R _ _ _ (S _)))))))),
             L _ _ _ (L _ _ _ (L _ _ _ (L _ _ _ (L _ _ _ (R _ _ _ (S _))))))⟩
  · rcases hs with h | h <;> subst h
    · exact ⟨L _ _ _ (L _ _ _ (L _ _ _ (L _ _ _ (L _ _ _ (L _ _ _ (L _ _ _ (R _ _ _ (S _)))))))),
             L _ _ _ (L _ _ _ (L _ _ _ (L _ _ _ (L _ _ _ (R _ _ _ (S _))))))⟩
    · exact ⟨L _ _ _ (L _ _ _ (L _ _ _ (L _ _ _ (L _ _ _ (R _ _ _ (S _)))))),
             L _ _ _ (L _ _ _ (L _ _ _ (L _ _ _ (L _ _ _ (L _ _ _ (L _ _ _ (R _ _ _ (S _))))))))⟩
  · rcases hs with h | h <;> subst h
    · exact ⟨L _ _ _ (L _ _ _ (L _ _ _ (L _ _ _ (L _ _ _ (L _ _ _ (L _ _ _ (R _ _ _ (S _)))))))),
             L _ _ _ (L _ _ _ (L _ _ _ (L _ _ _ (L _ _ _ (R _ _ _ (S _))))))⟩
    · exact ⟨L _ _ _ (L _ _ _ (L _ _ _ (L _ _ _ (L _ _ _ (L _ _ _ (L _ _ _ (S _))))))),
             L _ _ _ (L _ _ _ (L _ _ _ (L _ _ _ (L _ _ _ (R _ _ _ (S _))))))⟩
  · rcases hs with h | h <;> subst h
    · exact ⟨L _ _ _ (L _ _ _ (L _ _ _ (L _ _ _ (L _ _ _ (R _ _ _ (S _)))))),
             L _ _ _ (L _ _ _ (L _ _ _ (L _ _ _ (L _ _ _ (L _ _ _ (L _ _ _ (R _ _ _ (S _))))))))⟩
    · exact ⟨L _ _ _ (L _ _ _ (L _ _ _ (L _ _ _ (L _ _ _ (L _ _ _ (L _ _ _ (R _ _ _ (S _)))))))),
             L _ _ _ (L _ _ _ (L _ _ _ (L _ _ _ (L _ _ _ (R _ _ _ (S _))))))⟩
  · rcases hs with h | h <;> subst h
    · exact ⟨L _ _ _ (L _ _ _ (L _ _ _ (L _ _ _ (L _ _ _ (L _ _ _ (L _ _ _ (S _))))))),
             L _ _ _ (L _ _ _ (L _ _ _ (L _ _ _ (L _ _ _ (R _ _ _ (S _))))))⟩
    · exact ⟨L _ _ _ (L _ _ _ (L _ _ _ (L _ _ _ (L _ _ _ (R _ _ _ (S _)))))),
             L _ _ _ (L _ _ _ (L _ _ _ (L _ _ _ (L _ _ _ (L _ _ _ (L _ _ _ (R _ _ _ (S _))))))))⟩

/-- C4 (amended): for every intent and non-empty title1 and primary_kw,
whenever some draw within the retry budget fits the length window (so the
truncating fallback is not taken), the title and the description returned
contain title1 and primary_kw as substrings; the hard-truncating fallback
can drop either fragment. -/
theorem claim_C4 (oracleT oracleD : Nat → Nat) (intent t1 pk sk tk ed : String)
    (ht1 : t1 ≠ "") (hpk : pk ≠ "")
    (hT : ∃ k, k < 10 ∧ titleFits oracleT intent t1 pk sk k = true)
    (hD : ∃ k, k < 10 ∧ descFits oracleD intent t1 pk sk tk ed k = true) :
    (pyContains (generate_title oracleT intent t1 pk sk) t1 = true ∧
     pyContains (generate_title oracleT intent t1 pk sk) pk = true) ∧
    (pyContains (generate_description oracleD intent t1 pk sk tk ed) t1 = true ∧
     pyContains (generate_description oracleD intent t1 pk sk tk ed) pk = true) := by
  constructor
  · have hmem : generate_title oracleT intent t1 pk sk ∈ titleTemplates intent t1 pk sk := by
      rw [generate_title]
      apply sampleLoop_fit_mem _ _ _ _ (by decide) 10 0
      obtain ⟨k, hk, hf⟩ := hT
      exact ⟨k, hk, by simpa [titleFits, titleDraw] using hf⟩
    exact titleTemplates_contain intent t1 pk sk _ hmem
  · have hmem : generate_description oracleD intent t1 pk sk tk ed ∈
        descTemplates intent t1 pk sk tk ed := by
      rw [generate_description]
      apply sampleLoop_fit_mem _ _ _ _ (by decide) 10 0
      obtain ⟨k, hk, hf⟩ := hD
      exact ⟨k, hk, by simpa [descFits, descDraw] using hf⟩
    exact descTemplates_contain intent t1 pk sk tk ed _ hmem

/-- C4 counterexample: with a 70-character title1 every product title
template is longer than the maximum, every draw fails, and the truncated
fallback contains neither title1 nor primary_kw — required content is
dropped entirely. -/
theorem claim_C4_counterexample :
    longA ≠ "" ∧ ("zq" : String) ≠ "" ∧
    pyContains (generate_title zeroOracle "product" longA "zq" "") longA = false ∧
    pyContains (generate_title zeroOracle "product" longA "zq" "") "zq" = false :=
  ⟨by decide, by decide, by decide, by decide⟩

/-- C4 witness: on the end-to-end scenario fragments the first draw fits for
both assemblers and both outputs contain title1 and primary_kw. -/
theorem claim_C4_witness :
    ("Acme Laptops" : String) ≠ "" ∧ ("gaming laptop" : String) ≠ "" ∧
    (∃ k, k < 10 ∧
      titleFits zeroOracle "product" "Acme Laptops" "gaming laptop" "RTX graphics" k = true) ∧
    (∃ k, k < 10 ∧
      descFits zeroOracle "product" "Acme Laptops" "gaming laptop" "RTX graphics"
        "fast SSD" "" k = true) ∧
    pyContains (generate_title zeroOracle "product" "Acme Laptops" "gaming laptop"
      "RTX graphics") "Acme Laptops" = true ∧
    pyContains (generate_title zeroOracle "product" "Acme Laptops" "gaming laptop"
      "RTX graphics") "gaming laptop" = true ∧
    pyContains (generate_description zeroOracle "product" "Acme Laptops" "gaming laptop"
      "RTX graphics" "fast SSD" "") "Acme Laptops" = true ∧
    pyContains (generate_description zeroOracle "product" "Acme Laptops" "gaming laptop"
      "RTX graphics" "fast SSD" "") "gaming laptop" = true := by
  have hT : ∃ k, k < 10 ∧
      titleFits zeroOracle "product" "Acme Laptops" "gaming laptop" "RTX graphics" k = true :=
    ⟨0, by decide, by decide⟩
  have hD : ∃ k, k < 10 ∧
      descFits zeroOracle "product" "Acme Laptops" "gaming laptop" "RTX graphics"
        "fast SSD" "" k = true :=
    ⟨0, by decide, by decide⟩
  have h := claim_C4 zeroOracle zeroOracle "product" "Acme Laptops" "gaming laptop"
    "RTX graphics" "fast SSD" "" (by decide) (by decide) hT hD
  exact ⟨by decide, by decide, hT, hD, h.1.1, h.1.2, h.2.1, h.2.2⟩

/-! ## Claim C5: per-run deduplication -/

theorem dedupLoop_not_mem (gen : Nat → String) (seen : List String) :
    ∀ fuel k t, dedupLoop gen seen fuel k = some t → t ∉ seen := by
  intro fuel
  induction fuel with
  | zero =>
    intro k t h
    simp [dedupLoop] at h
  | succ fuel ih =>
    intro k t h
    rw [dedupLoop] at h
    by_cases hc : gen k ∈ seen
    · simp only [if_pos hc] at h
      exact ih _ _ h
    · simp only [if_neg hc, Option.some.injEq] at h
      rw [← h]
      exact hc

theorem runBatch_not_seen : ∀ (rows : List ((Nat → String) × (Nat → String)))
    (seenT seenD : List String) (fuel : Nat) (out : List (String × String)),
    runBatch rows seenT seenD fuel = some out →
    ((out.map Prod.fst).Pairwise (· ≠ ·) ∧ ∀ p ∈ out, p.1 ∉ seenT) ∧
    ((out.map Prod.snd).Pairwise (· ≠ ·) ∧ ∀ p ∈ out, p.2 ∉ seenD) := by
  intro rows
  induction rows with
  | nil =>
    intro seenT seenD fuel out h
    rw [runBatch, Option.some.injEq] at h
    subst h
    simp
  | cons r rest ih =>
    intro seenT seenD fuel out h
    rw [runBatch] at h
    split at h
    · exact absurd h (by simp)
    · rename_i t h1
      split at h
      · exact absurd h (by simp)
      · rename_i d h2
        split at h
        · exact absurd h (by simp)
        · rename_i out' h3
          rw [Option.some.injEq] at h
          subst h
          obtain ⟨⟨hT1, hT2⟩, hD1, hD2⟩ := ih _ _ _ _ h3
          have htm := dedupLoop_not_mem r.1 seenT fuel 0 t h1
          have hdm := dedupLoop_not_mem r.2 seenD fuel 0 d h2
          refine ⟨⟨?_, ?_⟩, ?_, ?_⟩
          · rw [List.map_cons]
            refine List.Pairwise.cons ?_ hT1
            intro q hq heq
            obtain ⟨p, hp, hpq⟩ := List.mem_map.mp hq
            exact hT2 p hp (by rw [hpq, ← heq]; exact List.mem_cons_self _ _)
          · intro p hp
            rcases List.mem_cons.mp hp with he | hp'
            · rw [he]; exact htm
            · exact fun hmem => hT2 p hp' (List.mem_cons_of_mem _ hmem)
          · rw [List.map_cons]
            refine List.Pairwise.cons ?_ hD1
            intro q hq heq
            obtain ⟨p, hp, hpq⟩ := List.mem_map.mp hq
            exact hD2 p hp (by rw [hpq, ← heq]; exact List.mem_cons_self _ _)
          · intro p hp
            rcases List.mem_cons.mp hp with he | hp'
            · rw [he]; exact hdm
            · exact fun hmem => hD2 p hp' (List.mem_cons_of_mem _ hmem)

/-- C5: when the batch loop completes (within any fuel bound for the
deduplication re-draw loops), no two records receive the same generated
title and no two records receive the same generated description. -/
theorem claim_C5 (rows : List ((Nat → String) × (Nat → String))) (fuel : Nat)
    (out : List (String × String)) (h : runBatch rows [] [] fuel = some out) :
    (out.map Prod.fst).Pairwise (· ≠ ·) ∧ (out.map Prod.snd).Pairwise (· ≠ ·) :=
  ⟨(runBatch_not_seen rows [] [] fuel out h).1.1,
   (runBatch_not_seen rows [] [] fuel out h).2.1⟩

/-- C5 witness: a two-record batch whose second title attempt collides and
is re-drawn; the run completes and both output columns are duplicate-free. -/
theorem claim_C5_witness :
    runBatch rowsC5 [] [] 3 = some [("A", "B"), ("C", "D")] ∧
    (([("A", "B"), ("C", "D")].map Prod.fst).Pairwise (· ≠ ·) ∧
     ([("A", "B"), ("C", "D")].map Prod.snd).Pairwise (· ≠ ·)) := by
  have h : runBatch rowsC5 [] [] 3 = some [("A", "B"), ("C", "D")] := by decide
  exact ⟨h, claim_C5 rowsC5 3 _ h⟩

/-! ## Claim C6: unconditional hard upper bound, no lower bound -/

/-- C6: for every random outcome the generated title has length at most 60
and the generated description at most 160 (the success path checks the
window and the fallback truncates), while the minimum is not guaranteed:
there are inputs and outcomes with output below the minimum. -/
theorem claim_C6 :
    (∀ (oracle : Nat → Nat) (intent t1 pk sk : String),
      (generate_title oracle intent t1 pk sk).length ≤ TITLE_MAX) ∧
    (∀ (oracle : Nat → Nat) (intent t1 pk sk tk ed : String),
      (generate_description oracle intent t1 pk sk tk ed).length ≤ DESC_MAX) ∧
    (∃ (oracle : Nat → Nat) (intent t1 pk sk : String),
      (generate_title oracle intent t1 pk sk).length < TITLE_MIN) ∧
    (∃ (oracle : Nat → Nat) (intent t1 pk sk tk ed : String),
      (generate_description oracle intent t1 pk sk tk ed).length < DESC_MIN) := by
  refine ⟨?_, ?_, ?_, ?_⟩
  · intro oracle intent t1 pk sk
    exact sampleLoop_length_le _ _ _ _ 10 0
  · intro oracle intent t1 pk sk tk ed
    exact sampleLoop_length_le _ _ _ _ 10 0
  · exact ⟨zeroOracle, "generic", "", "", "", by decide⟩
  · exact ⟨zeroOracle, "generic", "", "", "", "", "", by decide⟩

/-! ## Claim C7: the end-to-end scenario -/

/-- C7 (amended): on the scenario row, the detected intent is product; for
every random outcome the generated title is one of the four product title
templates (of lengths 50, 49, 50 and 48, so at most 60 but possibly below
the minimum) and the generated description one of the two product
description templates (of lengths 158 and 138), and the description
contains "gaming laptop" and "RTX graphics"; the length windows are
achieved for some random outcomes (this theorem) but not for all (the
counterexample). -/
theorem claim_C7 (oracleT oracleD : Nat → Nat) :
    (processRecord oracleT oracleD row7).1 = "product" ∧
    (processRecord oracleT oracleD row7).2.1 ∈
      titleTemplates "product" "Acme Laptops" "gaming laptop" "RTX graphics" ∧
    ((processRecord oracleT oracleD row7).2.1.length = 50 ∨
     (processRecord oracleT oracleD row7).2.1.length = 49 ∨
     (processRecord oracleT oracleD row7).2.1.length = 48) ∧
    (processRecord oracleT oracleD row7).2.2 ∈
      descTemplates "product" "Acme Laptops" "gaming laptop" "RTX graphics" "fast SSD"
        "Buy the best gaming laptop" ∧
    ((processRecord oracleT oracleD row7).2.2.length = 158 ∨
     (processRecord oracleT oracleD row7).2.2.length = 138) ∧
    pyContains (processRecord oracleT oracleD row7).2.2 "gaming laptop" = true ∧
    pyContains (processRecord oracleT oracleD row7).2.2 "RTX graphics" = true ∧
    (∃ oT oD : Nat → Nat,
      50 ≤ (processRecord oT oD row7).2.1.length ∧
      (processRecord oT oD row7).2.1.length ≤ 60 ∧
      150 ≤ (processRecord oT oD row7).2.2.length ∧
      (processRecord oT oD row7).2.2.length ≤ 160) := by
  have e1 : getField row7 "Title 1" = "Acme Laptops" := by decide
  have e2 : getField row7 "Existing Description" = "Buy the best gaming laptop" := by decide
  have e3 : getField row7 "Primary KW" = "gaming laptop" := by decide
  have e4 : getField row7 "Secondary KW" = "RTX graphics" := by decide
  have e5 : getField row7 "Tertiary KW" = "fast SSD" := by decide
  have ei : detect_intent "Acme Laptops" "Buy the best gaming laptop" = "product" := by decide
  simp only [processRecord, e1, e2, e3, e4, e5, ei]
  have hmemT : generate_title oracleT "product" "Acme Laptops" "gaming laptop" "RTX graphics" ∈
      titleTemplates "product" "Acme Laptops" "gaming laptop" "RTX graphics" := by
    have hmem := sampleLoop_mem
      (titleTemplates "product" "Acme Laptops" "gaming laptop" "RTX graphics")
      TITLE_MIN TITLE_MAX oracleT (by decide) 10 0
    have hlist : titleTemplates "product" "Acme Laptops" "gaming laptop" "RTX graphics" ++
        (titleTemplates "product" "Acme Laptops" "gaming laptop" "RTX graphics").map
          (fun t => pySlice t TITLE_MAX) =
        titleTemplates "product" "Acme Laptops" "gaming laptop" "RTX graphics" ++
        titleTemplates "product" "Acme Laptops" "gaming laptop" "RTX graphics" := by decide
    rw [hlist] at hmem
    rcases List.mem_append.mp hmem with hmem1 | hmem1 <;> exact hmem1
  have hmemD : generate_description oracleD "product" "Acme Laptops" "gaming laptop"
      "RTX graphics" "fast SSD" "Buy the best gaming laptop" ∈
      descTemplates "product" "Acme Laptops" "gaming laptop" "RTX graphics" "fast SSD"
        "Buy the best gaming laptop" := by
    have hmem := sampleLoop_mem
      (descTemplates "product" "Acme Laptops" "gaming laptop" "RTX graphics" "fast SSD"
        "Buy the best gaming laptop")
      DESC_MIN DESC_MAX oracleD (by decide) 10 0
    have hlist : descTemplates "product" "Acme Laptops" "gaming laptop" "RTX graphics"
        "fast SSD" "Buy the best gaming laptop" ++
        (descTemplates "product" "Acme Laptops" "gaming laptop" "RTX graphics" "fast SSD"
          "Buy the best gaming laptop").map (fun t => pySlice t DESC_MAX) =
        descTemplates "product" "Acme Laptops" "gaming laptop" "RTX graphics" "fast SSD"
          "Buy the best gaming laptop" ++
        descTemplates "product" "Acme Laptops" "gaming laptop" "RTX graphics" "fast SSD"
          "Buy the best gaming laptop" := by decide
    rw [hlist] at hmem
    rcases List.mem_append.mp hmem with hmem1 | hmem1 <;> exact hmem1
  have hT4 := hmemT
  rw [show titleTemplates "product" "Acme Laptops" "gaming laptop" "RTX graphics" =
      ["Buy Acme Laptops | gaming laptop Details & Pricing",
       "gaming laptop – Acme Laptops with Latest Features",
       "Acme Laptops: Premium gaming laptop for Every Need",
       "Acme Laptops – Explore Top gaming laptop Options"] from by decide] at hT4
  simp only [List.mem_cons, List.not_mem_nil, or_false] at hT4
  have hD2 := hmemD
  rw [show descTemplates "product" "Acme Laptops" "gaming laptop" "RTX graphics" "fast SSD"
      "Buy the best gaming laptop" =
      ["Discover Acme Laptops, a premium gaming laptop offering the best in performance and value. Compare RTX graphics and fast SSD to find your perfect match today.",
       "Explore Acme Laptops, designed for those who want the finest gaming laptop. Compare RTX graphics and fast SSD for a smarter buying choice."] from by decide] at hD2
  simp only [List.mem_cons, List.not_mem_nil, or_false] at hD2
  refine ⟨trivial, hmemT, ?_, hmemD, ?_, ?_, ?_,
    ⟨zeroOracle, zeroOracle, by decide, by decide, by decide, by decide⟩⟩
  · rcases hT4 with h | h | h | h <;> rw [h] <;> decide
  · rcases hD2 with h | h <;> rw [h] <;> decide
  · rcases hD2 with h | h <;> rw [h] <;> decide
  · rcases hD2 with h | h <;> rw [h] <;> decide

/-- C7 counterexample: under the oracle that always draws template 1, the
same scenario row yields a 49-character title and a 138-character
description, both outside their windows, so the length claims do not hold
for every random outcome. -/
theorem claim_C7_counterexample :
    (processRecord oneOracle oneOracle row7).1 = "product" ∧
    (processRecord oneOracle oneOracle row7).2.1.length = 49 ∧
    ¬(50 ≤ (processRecord oneOracle oneOracle row7).2.1.length ∧
      (processRecord oneOracle oneOracle row7).2.1.length ≤ 60) ∧
    (processRecord oneOracle oneOracle row7).2.2.length = 138 ∧
    ¬(150 ≤ (processRecord oneOracle oneOracle row7).2.2.length) := by
  refine ⟨by decide, by decide, by decide, by decide, by decide⟩

/-! ## Claim C8: all-empty input -/

/-- C8: on the all-empty input the classifier returns generic, and for every
random outcome both assemblers return one of the (reduced-content) generic
templates rendered with empty fragments — they always produce a string. -/
theorem claim_C8 :
    detect_intent "" "" = "generic" ∧
    (∀ oracle : Nat → Nat,
      generate_title oracle "generic" "" "" "" ∈ titleTemplates "generic" "" "" "") ∧
    (∀ oracle : Nat → Nat,
      generate_description oracle "generic" "" "" "" "" "" ∈
        descTemplates "generic" "" "" "" "" "") := by
  refine ⟨by decide, fun oracle => ?_, fun oracle => ?_⟩
  · have hmem := sampleLoop_mem (titleTemplates "generic" "" "" "")
      TITLE_MIN TITLE_MAX oracle (by decide) 10 0
    have hlist : titleTemplates "generic" "" "" "" ++
        (titleTemplates "generic" "" "" "").map (fun t => pySlice t TITLE_MAX) =
        titleTemplates "generic" "" "" "" ++ titleTemplates "generic" "" "" "" := by decide
    rw [hlist] at hmem
    rcases List.mem_append.mp hmem with hmem1 | hmem1 <;> exact hmem1
  · have hmem := sampleLoop_mem (descTemplates "generic" "" "" "" "" "")
      DESC_MIN DESC_MAX oracle (by decide) 10 0
    have hlist : descTemplates "generic" "" "" "" "" "" ++
        (descTemplates "generic" "" "" "" "" "").map (fun t => pySlice t DESC_MAX) =
        descTemplates "generic" "" "" "" "" "" ++ descTemplates "generic" "" "" "" "" "" := by
      decide
    rw [hlist] at hmem
    rcases List.mem_append.mp hmem with hmem1 | hmem1 <;> exact hmem1

/-! ## Claim C9: missing fields -/

/-- C9 (amended): an absent column is coerced to the empty string, while a
null (pandas missing) value is stringified to "nan" by str(); in both cases
the record is processed to completion, with the generated outputs still
obeying the hard maximum lengths. -/
theorem claim_C9 :
    (∀ (row : String → Cell) (col : String),
      row col = Cell.absent → getField row col = "") ∧
    (∀ (row : String → Cell) (col : String),
      row col = Cell.null → getField row col = "nan") ∧
    (∀ (oracleT oracleD : Nat → Nat) (row : String → Cell),
      (processRecord oracleT oracleD row).2.1.length ≤ TITLE_MAX ∧
      (processRecord oracleT oracleD row).2.2.length ≤ DESC_MAX) := by
  refine ⟨?_, ?_, ?_⟩
  · intro row col h
    rw [getField, h]
    decide
  · intro row col h
    rw [getField, h]
    decide
  · intro oracleT oracleD row
    simp only [processRecord]
    refine ⟨?_, ?_⟩
    · rw [generate_title]
      exact sampleLoop_length_le _ _ _ _ 10 0
    · rw [generate_description]
      exact sampleLoop_length_le _ _ _ _ 10 0

/-- C9 counterexample: a null (pandas missing) cell is not coerced to the
empty string — `str(nan)` is the four-character string "nan". -/
theorem claim_C9_counterexample :
    (fun _ : String => Cell.null) "Title 1" = Cell.null ∧
    getField (fun _ : String => Cell.null) "Title 1" = "nan" ∧
    getField (fun _ : String => Cell.null) "Title 1" ≠ "" :=
  ⟨rfl, by decide, by decide⟩

/-- C9 witness: concrete absent and null cells, and a fully-absent row whose
processing completes within the title bound. -/
theorem claim_C9_witness :
    getField (fun _ : String => Cell.absent) "Title 1" = "" ∧
    getField (fun _ : String => Cell.null) "Primary KW" = "nan" ∧
    (processRecord zeroOracle zeroOracle (fun _ : String => Cell.absent)).2.1.length ≤
      TITLE_MAX :=
  ⟨claim_C9.1 _ _ rfl, claim_C9.2.1 _ _ rfl, (claim_C9.2.2 zeroOracle zeroOracle _).1⟩

/-! ## Claim C10: exported columns -/

theorem setCol_of_not_has (df : List (String × List PVal)) (name : String)
    (vals : List PVal) (h : dfHasCol df name = false) :
    setCol df name vals = df ++ [(name, vals)] := by
  rw [setCol, h]
  simp

theorem dfHasCol_append (df1 df2 : List (String × List PVal)) (name : String) :
    dfHasCol (df1 ++ df2) name = (dfHasCol df1 name || dfHasCol df2 name) := by
  simp [dfHasCol, List.any_append]

theorem getCol_append (df1 df2 : List (String × List PVal)) (name : String)
    (h : dfHasCol df1 name = false) :
    getCol (df1 ++ df2) name = getCol df2 name := by
  have hnone : df1.find? (fun p => p.1 == name) = none := by
    rw [List.find?_eq_none]
    intro x hx
    rw [dfHasCol] at h
    simpa using List.any_eq_false.mp h x hx
  rw [getCol, getCol, List.find?_append, hnone]
  simp

theorem dfHasCol_singleton (n m : String) (v : List PVal) :
    dfHasCol [(n, v)] m = (n == m) := by
  simp [dfHasCol]

theorem applyLen_map_vs (l : List String) :
    applyLen (l.map PVal.vs) = l.map (fun s => PVal.vn s.length) := by
  rw [applyLen, List.map_map]
  rfl

/-- C10 (amended): for every input table none of whose columns uses one of
the five appended names, the export is the original columns unchanged
followed by Detected Intent, Generated Meta Title, Generated Meta
Description, Title Char Count and Description Char Count in that order, the
count columns holding the character lengths of the generated strings; a
clashing input column is instead overwritten in place. -/
theorem claim_C10 (df : List (String × List PVal)) (intents titles descs : List String)
    (h : ∀ name ∈ outputColumns, dfHasCol df name = false) :
    appendResults df intents titles descs =
      df ++ [("Detected Intent", intents.map PVal.vs),
             ("Generated Meta Title", titles.map PVal.vs),
             ("Generated Meta Description", descs.map PVal.vs),
             ("Title Char Count", titles.map (fun t => PVal.vn t.length)),
             ("Description Char Count", descs.map (fun d => PVal.vn d.length))] := by
  have h1 := h "Detected Intent" (by decide)
  have h2 := h "Generated Meta Title" (by decide)
  have h3 := h "Generated Meta Description" (by decide)
  have h4 := h "Title Char Count" (by decide)
  have h5 := h "Description Char Count" (by decide)
  simp only [appendResults]
  rw [setCol_of_not_has df _ _ h1]
  have hh2 : dfHasCol (df ++ [("Detected Intent", intents.map PVal.vs)])
      "Generated Meta Title" = false := by
    rw [dfHasCol_append, h2, dfHasCol_singleton]
    decide
  rw [setCol_of_not_has _ _ _ hh2]
  have hh3 : dfHasCol ((df ++ [("Detected Intent", intents.map PVal.vs)]) ++
      [("Generated Meta Title", titles.map PVal.vs)]) "Generated Meta Description" = false := by
    rw [dfHasCol_append, dfHasCol_append, h3, dfHasCol_singleton, dfHasCol_singleton]
    decide
  rw [setCol_of_not_has _ _ _ hh3]
  have hg1 : getCol (((df ++ [("Detected Intent", intents.map PVal.vs)]) ++
      [("Generated Meta Title", titles.map PVal.vs)]) ++
      [("Generated Meta Description", descs.map PVal.vs)]) "Generated Meta Title" =
      titles.map PVal.vs := by
    rw [List.append_assoc, List.append_assoc, getCol_append _ _ _ h2]
    simp [getCol, List.find?]
  rw [hg1, applyLen_map_vs]
  have hh4 : dfHasCol (((df ++ [("Detected Intent", intents.map PVal.vs)]) ++
      [("Generated Meta Title", titles.map PVal.vs)]) ++
      [("Generated Meta Description", descs.map PVal.vs)]) "Title Char Count" = false := by
    rw [dfHasCol_append, dfHasCol_append, dfHasCol_append, h4, dfHasCol_singleton,
      dfHasCol_singleton, dfHasCol_singleton]
    decide
  rw [setCol_of_not_has _ _ _ hh4]
  have hg2 : getCol ((((df ++ [("Detected Intent", intents.map PVal.vs)]) ++
      [("Generated Meta Title", titles.map PVal.vs)]) ++
      [("Generated Meta Description", descs.map PVal.vs)]) ++
      [("Title Char Count", titles.map (fun s => PVal.vn s.length))])
      "Generated Meta Description" = descs.map PVal.vs := by
    rw [List.append_assoc, List.append_assoc, List.append_assoc, getCol_append _ _ _ h3]
    simp [getCol, List.find?]
  rw [hg2, applyLen_map_vs]
  have hh5 : dfHasCol ((((df ++ [("Detected Intent", intents.map PVal.vs)]) ++
      [("Generated Meta Title", titles.map PVal.vs)]) ++
      [("Generated Meta Description", descs.map PVal.vs)]) ++
      [("Title Char Count", titles.map (fun s => PVal.vn s.length))])
      "Description Char Count" = false := by
    rw [dfHasCol_append, dfHasCol_append, dfHasCol_append, dfHasCol_append, h5,
      dfHasCol_singleton, dfHasCol_singleton, dfHasCol_singleton, dfHasCol_singleton]
    decide
  rw [setCol_of_not_has _ _ _ hh5]
  simp [List.append_assoc]

/-- C10 counterexample: when the input table already has a column named
"Detected Intent", its original values are overwritten rather than
preserved, so the exported table is not the original columns unchanged
followed by the appended columns. -/
theorem claim_C10_counterexample :
    getCol clashDf "Detected Intent" = [PVal.vs "x"] ∧
    getCol (appendResults clashDf ["generic"] ["t"] ["d"]) "Detected Intent" =
      [PVal.vs "generic"] ∧
    ([PVal.vs "generic"] : List PVal) ≠ [PVal.vs "x"] :=
  ⟨by decide, by decide, by decide⟩

/-- C10 witness: a clash-free one-column table receives exactly the five
appended columns, in order, with the char counts equal to the generated
string lengths. -/
theorem claim_C10_witness :
    (∀ name ∈ outputColumns, dfHasCol plainDf name = false) ∧
    appendResults plainDf ["generic"] ["t"] ["d"] =
      plainDf ++ [("Detected Intent", [PVal.vs "generic"]),
                  ("Generated Meta Title", [PVal.vs "t"]),
                  ("Generated Meta Description", [PVal.vs "d"]),
                  ("Title Char Count", [PVal.vn 1]),
                  ("Description Char Count", [PVal.vn 1])] := by
  refine ⟨by decide, ?_⟩
  exact (claim_C10 plainDf ["generic"] ["t"] ["d"] (by decide)).trans (by decide)
